import Mathlib

/-!
Verification development for the Smart Financial Ratio Analyzer backend
(expression evaluation and financial ratio computation engine).

The Python source is shallowly embedded:
* machine floats are modelled as exact rationals (`ℚ`); binary floating
  point rounding is abstracted away, and `x ** y` is modelled only for
  integer exponents `y` (otherwise the real result is irrational or
  complex and lies outside the exact model);
* Python dicts are modelled as ordered association lists (Python dicts
  preserve insertion order), `None` as `Option.none` or an explicit null
  constructor;
* exceptions are modelled with `Except`;
* the string-to-AST step (`ast.parse`) is external: functions that in the
  source receive a formula string here receive the already parsed tree.
-/

/-! ### Association-list helpers (Python `dict` semantics) -/

/-- Lookup of a key in an ordered association list (Python `d[k]` / `d.get(k)`). -/
def lookupL {α : Type} (k : String) : List (String × α) → Option α
  | [] => none
  | (k', v) :: rest => if k' = k then some v else lookupL k rest

/-- Python `d[k] = v`: replace in place if the key exists, else append.
Mirrors dict insertion-order semantics. -/
def updList {α : Type} (k : String) (v : α) : List (String × α) → List (String × α)
  | [] => [(k, v)]
  | (k', v') :: rest => if k' = k then (k, v) :: rest else (k', v') :: updList k v rest

/-- Modify the value stored at key `k` in place (no-op when absent). -/
def mapValAt {α : Type} (k : String) (f : α → α) : List (String × α) → List (String × α)
  | [] => []
  | (k', v) :: rest => if k' = k then (k', f v) :: rest else (k', v) :: mapValAt k f rest

/-! ### String helpers mirroring the Python string methods used -/

/-- Python `needle in hay` (substring containment). -/
def strContains (hay needle : String) : Bool :=
  let h := hay.toList
  let n := needle.toList
  (List.range (h.length + 1)).any (fun i => n.isPrefixOf (h.drop i))

/-- Python `s.replace(' ', '_')` specialised to single-character replacement. -/
def replaceChar (s : String) (c r : Char) : String :=
  String.mk (s.toList.map (fun x => if x = c then r else x))

/-- Python `s.replace(c, '')`: drop every occurrence of the character. -/
def dropChar (s : String) (c : Char) : String :=
  String.mk (s.toList.filter (fun x => x ≠ c))

/-- Python `s.lower()` (ASCII case mapping; the source data is ASCII). -/
def pyLower (s : String) : String :=
  String.mk (s.toList.map Char.toLower)

/-- The whitespace characters stripped by Python `s.strip()`. -/
def isPySpaceChar (c : Char) : Bool :=
  c = ' ' || c = Char.ofNat 9 || c = Char.ofNat 10 || c = Char.ofNat 13 ||
  c = Char.ofNat 11 || c = Char.ofNat 12

/-- Python `s.strip()`. -/
def pyStrip (s : String) : String :=
  String.mk (((s.toList.dropWhile isPySpaceChar).reverse.dropWhile isPySpaceChar).reverse)

/-- Python `name.lower().replace(' ', '_')` (used for default custom-ratio ids). -/
def pySlugId (s : String) : String :=
  replaceChar (pyLower s) ' ' '_'

/-! ### Rounding: Python `round(x, 2)` modelled as exact half-even rounding -/

/-- Round-half-to-even to an integer, the tie-breaking rule of Python `round`.
(The binary-representation artifacts of rounding IEEE doubles are abstracted.) -/
def roundHalfEven (q : ℚ) : ℤ :=
  let f : ℤ := ⌊q⌋
  let r : ℚ := q - f
  if r < 1/2 then f
  else if 1/2 < r then f + 1
  else if f % 2 = 0 then f else f + 1

/-- Python `round(x, 2)`. -/
def round2 (q : ℚ) : ℚ := (roundHalfEven (q * 100) : ℚ) / 100

/-!
### `formula_evaluator.py`: the restricted Python expression AST

Constructors mirror the `ast` node classes that can reach
`parse_and_validate_formula` / `safe_eval_ast`, plus the statement classes
the validator explicitly checks for.  Payloads that the source never
inspects (e.g. call arguments) are kept minimal.
-/

/-- Binary operators of `SAFE_OPERATORS` (`ast.Add` … `ast.FloorDiv`). -/
inductive BinOpK | add | sub | mult | div | pow | mod | floordiv
  deriving DecidableEq, Repr

/-- Unary operators of `SAFE_OPERATORS` (`ast.UAdd`, `ast.USub`). -/
inductive UnOpK | uadd | usub
  deriving DecidableEq, Repr

/-- Python expression AST nodes relevant to the formula evaluator. -/
inductive PyNode where
  /-- `ast.Constant` (or legacy `ast.Num`): a numeric literal. -/
  | num (v : ℚ)
  /-- `ast.Name`: a variable reference. -/
  | name (id : String)
  /-- `ast.BinOp`. -/
  | binop (op : BinOpK) (l r : PyNode)
  /-- `ast.UnaryOp`. -/
  | unaryop (op : UnOpK) (e : PyNode)
  /-- `ast.Expression`: the wrapper produced by `ast.parse(_, mode='eval')`. -/
  | expression (body : PyNode)
  /-- `ast.BoolOp`, e.g. `a and b` (not in the blacklist, not arithmetic). -/
  | boolop (l r : PyNode)
  /-- `ast.Compare`, e.g. `a < b` (not in the blacklist, not arithmetic). -/
  | compare (l r : PyNode)
  /-- `ast.IfExp`, e.g. `a if c else b` (not in the blacklist, not arithmetic). -/
  | ifexp (c t e : PyNode)
  /-- `ast.Call`: function or method call. -/
  | call (fn arg : PyNode)
  /-- `ast.Lambda`. -/
  | lam (body : PyNode)
  /-- `ast.FunctionDef` (checked by the validator even though it cannot occur
  in `mode='eval'` parses). -/
  | funcdef
  /-- `ast.Import` (likewise statement-only). -/
  | importStmt
  /-- `ast.ImportFrom` (likewise statement-only). -/
  | importFrom
  /-- `ast.Attribute`: attribute access `a.b`. -/
  | attrNode (val : PyNode) (attr : String)
  /-- `ast.Subscript`: index access `a[b]`. -/
  | subscript (val idx : PyNode)
  deriving DecidableEq, Repr

/-- The arithmetic whitelist named by the specification: literals, variables,
binary ops, unary ops and the expression wrapper, recursively. -/
def isArithOnly : PyNode → Bool
  | .num _ => true
  | .name _ => true
  | .binop _ l r => isArithOnly l && isArithOnly r
  | .unaryop _ e => isArithOnly e
  | .expression b => isArithOnly b
  | _ => false

/-- Does the tree contain a node of one of the classes blacklisted by the
`ast.walk` loop of `parse_and_validate_formula`
(`Call`/`Lambda`/`FunctionDef`, `Import`/`ImportFrom`, `Attribute`/`Subscript`)? -/
def containsBanned : PyNode → Bool
  | .num _ => false
  | .name _ => false
  | .binop _ l r => containsBanned l || containsBanned r
  | .unaryop _ e => containsBanned e
  | .expression b => containsBanned b
  | .boolop l r => containsBanned l || containsBanned r
  | .compare l r => containsBanned l || containsBanned r
  | .ifexp c t e => containsBanned c || containsBanned t || containsBanned e
  | .call _ _ => true
  | .lam _ => true
  | .funcdef => true
  | .importStmt => true
  | .importFrom => true
  | .attrNode _ _ => true
  | .subscript _ _ => true

/-- The error message produced for the first blacklisted node found while
walking the tree (the source walks breadth-first; when several blacklisted
nodes occur only the choice of message can differ, not acceptance). -/
def walkFindError : PyNode → Option String
  | .num _ => none
  | .name _ => none
  | .binop _ l r => (walkFindError l).orElse (fun _ => walkFindError r)
  | .unaryop _ e => walkFindError e
  | .expression b => walkFindError b
  | .boolop l r => (walkFindError l).orElse (fun _ => walkFindError r)
  | .compare l r => (walkFindError l).orElse (fun _ => walkFindError r)
  | .ifexp c t e =>
      ((walkFindError c).orElse (fun _ => walkFindError t)).orElse
        (fun _ => walkFindError e)
  | .call _ _ => some "Function calls are not allowed in formulas"
  | .lam _ => some "Function calls are not allowed in formulas"
  | .funcdef => some "Function calls are not allowed in formulas"
  | .importStmt => some "Import statements are not allowed"
  | .importFrom => some "Import statements are not allowed"
  | .attrNode _ _ => some "Attribute access and subscripts are not allowed"
  | .subscript _ _ => some "Attribute access and subscripts are not allowed"

/-- `parse_and_validate_formula`, from the point where the formula string has
been parsed into `tree` (empty-formula and syntax errors belong to the
external parser boundary).  Returns `(is_valid, error_message, ast_tree)`. -/
def parse_and_validate_formula (tree : PyNode) : Bool × Option String × Option PyNode :=
  match walkFindError tree with
  | some msg => (false, some msg, none)
  | none => (true, none, some tree)

/-- The errors `safe_eval_ast` (and the surrounding `evaluate_formula`
handlers) can produce. -/
inductive EvalErr where
  /-- `FormulaEvaluationError` raised for a variable absent from the data. -/
  | varNotFound (id : String)
  /-- `Division by zero`: the explicit guard before `/`, and the Python
  `ZeroDivisionError` raised by `%`, `//` and `0 ** negative`. -/
  | divByZero
  /-- The `else` branch: a node kind outside the arithmetic whitelist. -/
  | unsupportedNode
  /-- A power with a non-integer exponent: the source computes an IEEE float
  (or complex) here, a value outside the exact rational model. -/
  | nonIntegerPower
  deriving DecidableEq, Repr

/-- The human-readable message `evaluate_formula` reports for each error,
mirroring the source message texts (quotes around the variable name elided). -/
def EvalErr.message : EvalErr → String
  | .varNotFound id => "Variable " ++ id ++ " not found in data"
  | .divByZero => "Division by zero"
  | .unsupportedNode => "Unsupported AST node type"
  | .nonIntegerPower => "Non-integer power outside the exact model"

/-- Application of a `SAFE_OPERATORS` binary operator to two values, with the
Python `ZeroDivisionError` cases.  `%` and `//` follow the Python float
semantics `a % b = a - b*floor(a/b)`, `a // b = floor(a/b)`. -/
def applyBinOp (op : BinOpK) (l r : ℚ) : Except EvalErr ℚ :=
  match op with
  | .add => .ok (l + r)
  | .sub => .ok (l - r)
  | .mult => .ok (l * r)
  | .div => .ok (l / r)
  | .mod => if r = 0 then .error .divByZero else .ok (l - r * ⌊l / r⌋)
  | .floordiv => if r = 0 then .error .divByZero else .ok ((⌊l / r⌋ : ℤ) : ℚ)
  | .pow =>
      if r.den = 1 then
        if l = 0 ∧ r.num < 0 then .error .divByZero else .ok (l ^ r.num)
      else .error .nonIntegerPower

/-- Application of a unary operator. -/
def applyUnOp (op : UnOpK) (v : ℚ) : ℚ :=
  match op with
  | .uadd => v
  | .usub => -v

/-- `safe_eval_ast(node, variables)`.  Errors raised by nested calls
propagate unchanged (matching exception propagation in the source). -/
def safe_eval_ast (vars : String → Option ℚ) : PyNode → Except EvalErr ℚ
  | .num v => .ok v
  | .name id =>
      match vars id with
      | some v => .ok v
      | none => .error (.varNotFound id)
  | .binop op l r =>
      match safe_eval_ast vars l with
      | .error e => .error e
      | .ok lv =>
          match safe_eval_ast vars r with
          | .error e => .error e
          | .ok rv =>
              -- the explicit division-by-zero guard, checked before the
              -- operator is applied
              if op = .div ∧ rv = 0 then .error .divByZero
              else applyBinOp op lv rv
  | .unaryop op e =>
      match safe_eval_ast vars e with
      | .error err => .error err
      | .ok v => .ok (applyUnOp op v)
  | .expression b => safe_eval_ast vars b
  | _ => .error .unsupportedNode

/-- `evaluate_formula(formula, data)`, from the already parsed tree on.  The
string-level variable substitution (`normalize_formula_variables`) happens at
the external parsing boundary; the key-space cleaning `k.replace(' ', '_')` is
kept.  Rationals have no NaN, so the post-evaluation NaN check never fires. -/
def evaluate_formula (tree : PyNode) (data : List (String × ℚ)) : Except EvalErr ℚ :=
  let cleanData := data.map (fun kv => (replaceChar kv.1 ' ' '_', kv.2))
  match parse_and_validate_formula tree with
  | (false, _, _) => .error .unsupportedNode
  | (true, _, _) => safe_eval_ast (fun k => lookupL k cleanData) tree

/-!
### Specification-side denotation for the arithmetic fragment

`denote` states the mathematically correct value of a formula using Lean
field arithmetic directly; it is the reference the evaluator is compared
against (claim C2).  `evalOk` is the side condition of that comparison:
all referenced variables bound, no zero right operand of `/`, `%`, `//`,
and powers restricted to integer exponents (with `0 ** negative` excluded).
-/

/-- Mathematical value of an arithmetic formula (total, using Lean operations;
`x / 0 = 0` by Lean convention — excluded by `evalOk` anyway). -/
def denote (vars : String → Option ℚ) : PyNode → ℚ
  | .num v => v
  | .name id => (vars id).getD 0
  | .binop op l r =>
      let lv := denote vars l
      let rv := denote vars r
      match op with
      | .add => lv + rv
      | .sub => lv - rv
      | .mult => lv * rv
      | .div => lv / rv
      | .mod => lv - rv * ⌊lv / rv⌋
      | .floordiv => ((⌊lv / rv⌋ : ℤ) : ℚ)
      | .pow => lv ^ (denote vars r).num
  | .unaryop op e => applyUnOp op (denote vars e)
  | .expression b => denote vars b
  | _ => 0

/-- Side condition under which evaluation is compared with `denote`. -/
def evalOk (vars : String → Option ℚ) : PyNode → Bool
  | .num _ => true
  | .name id => (vars id).isSome
  | .binop op l r =>
      evalOk vars l && evalOk vars r &&
      (match op with
       | .div | .mod | .floordiv => decide (denote vars r ≠ 0)
       | .pow => decide ((denote vars r).den = 1) &&
           decide (¬(denote vars l = 0 ∧ (denote vars r).num < 0))
       | _ => true)
  | .unaryop _ e => evalOk vars e
  | .expression b => evalOk vars b
  | _ => false

/-!
### `ratios_manager.py`: variable-name normalization

`VARIABLE_NAME_MAPPINGS` is an insertion-ordered Python dict; modelled as an
ordered association list (Python dict iteration order is insertion order, so
the partial-match scan below is deterministic).  One source string contains an
apostrophe (the `shareholders' equity` alias); the apostrophe character is
written via its escape to keep the file ASCII-clean.
-/

/-- The apostrophe character stripped by the mechanical slug fallback. -/
def apostrophe : Char := Char.ofNat 39

/-- `VARIABLE_NAME_MAPPINGS`, in source order. -/
def VARIABLE_NAME_MAPPINGS : List (String × String) := [
  ("total assets", "total_assets"),
  ("totalassets", "total_assets"),
  ("total_assets", "total_assets"),
  ("assets", "total_assets"),
  ("current assets", "current_assets"),
  ("currentassets", "current_assets"),
  ("current_assets", "current_assets"),
  ("fixed assets", "fixed_assets"),
  ("fixedassets", "fixed_assets"),
  ("fixed_assets", "fixed_assets"),
  ("total liabilities", "total_liabilities"),
  ("totalliabilities", "total_liabilities"),
  ("total_liabilities", "total_liabilities"),
  ("liabilities", "total_liabilities"),
  ("current liabilities", "current_liabilities"),
  ("currentliabilities", "current_liabilities"),
  ("current_liabilities", "current_liabilities"),
  ("total equity", "total_equity"),
  ("totalequity", "total_equity"),
  ("total_equity", "total_equity"),
  ("equity", "total_equity"),
  ("shareholders equity", "total_equity"),
  ("shareholders" ++ String.mk [apostrophe] ++ " equity", "total_equity"),
  ("shareholdersequity", "total_equity"),
  ("shareholders_equity", "total_equity"),
  ("capital", "total_equity"),
  ("revenue", "revenue"),
  ("sales", "revenue"),
  ("total revenue", "revenue"),
  ("totalrevenue", "revenue"),
  ("net sales", "revenue"),
  ("netsales", "revenue"),
  ("net income", "net_income"),
  ("netincome", "net_income"),
  ("net_income", "net_income"),
  ("profit", "net_income"),
  ("net profit", "net_income"),
  ("netprofit", "net_income"),
  ("cost of goods sold", "cost_of_goods_sold"),
  ("costofgoodssold", "cost_of_goods_sold"),
  ("cost_of_goods_sold", "cost_of_goods_sold"),
  ("cogs", "cost_of_goods_sold"),
  ("inventory", "inventory"),
  ("stock", "inventory"),
  ("average inventory", "average_inventory"),
  ("averageinventory", "average_inventory"),
  ("accounts receivable", "accounts_receivable"),
  ("accountsreceivable", "accounts_receivable"),
  ("accounts_receivable", "accounts_receivable"),
  ("receivables", "accounts_receivable"),
  ("debtors", "accounts_receivable"),
  ("ebit", "ebit"),
  ("operating income", "ebit"),
  ("operatingincome", "ebit"),
  ("interest expense", "interest_expense"),
  ("interestexpense", "interest_expense"),
  ("interest_expense", "interest_expense"),
  ("interest", "interest_expense")]

/-- `normalize_variable_name(variable)`: lowercase and strip, direct lookup in
the alias table, first partial (substring either way) match in table order,
else mechanical slug (spaces to underscores, apostrophes dropped). -/
def normalize_variable_name (vname : String) : String :=
  let normalized := pyStrip (pyLower vname)
  match lookupL normalized VARIABLE_NAME_MAPPINGS with
  | some v => v
  | none =>
      match VARIABLE_NAME_MAPPINGS.find?
          (fun kv => strContains kv.1 normalized || strContains normalized kv.1) with
      | some kv => kv.2
      | none => dropChar (replaceChar normalized ' ' '_') apostrophe

/-!
### `financial_ratios_service.py`: data model

`YearRecord` holds exactly the paths the service reads; every leaf is an
`Option ℚ` where `none` models both a JSON `null` and an absent key (the
source reads every path with `.get`, so the two behave identically here).
-/

/-- A `{total, breakdown}` group for current assets. -/
structure AssetsGroup where
  total : Option ℚ := none
  inventories : Option ℚ := none
  accounts_receivable : Option ℚ := none
  cash : Option ℚ := none
  deriving DecidableEq, Repr

/-- A `{total, breakdown}` group for non-current assets. -/
structure NonCurrentAssetsGroup where
  total : Option ℚ := none
  fixed_assets : Option ℚ := none
  deriving DecidableEq, Repr

/-- A `{total}` group for (non-)current liabilities. -/
structure LiabilitiesGroup where
  total : Option ℚ := none
  deriving DecidableEq, Repr

/-- The `equity` group. -/
structure EquityGroup where
  total : Option ℚ := none
  share_capital : Option ℚ := none
  retained_earnings : Option ℚ := none
  deriving DecidableEq, Repr

/-- The `income_statement` lines the service reads. -/
structure IncomeStatement where
  revenue : Option ℚ := none
  cost_of_goods_sold : Option ℚ := none
  gross_profit : Option ℚ := none
  operating_expenses : Option ℚ := none
  operating_income : Option ℚ := none
  ebit : Option ℚ := none
  interest_expense : Option ℚ := none
  income_tax_expense : Option ℚ := none
  net_income : Option ℚ := none
  deriving DecidableEq, Repr

/-- The `totals` aggregate group. -/
structure TotalsGroup where
  total_assets : Option ℚ := none
  total_liabilities : Option ℚ := none
  total_equity : Option ℚ := none
  deriving DecidableEq, Repr

/-- One reporting year of financial data. -/
structure YearRecord where
  current_assets : AssetsGroup := {}
  non_current_assets : NonCurrentAssetsGroup := {}
  current_liabilities : LiabilitiesGroup := {}
  non_current_liabilities : LiabilitiesGroup := {}
  equity : EquityGroup := {}
  income_statement : IncomeStatement := {}
  totals : TotalsGroup := {}
  deriving DecidableEq, Repr

/-- The input of `calculate_all_ratios`: `data.get('current_year', data)` and
`data.get('previous_year', {})` (an absent previous year is the all-`none`
record, which reads back `none` on every path exactly like `{}`). -/
structure FinData where
  current_year : YearRecord := {}
  previous_year : YearRecord := {}
  deriving DecidableEq, Repr

/-- A computed ratio value: a number or the string `"N/A"`. -/
inductive RatioValue where
  | num (q : ℚ)
  | na
  deriving DecidableEq, Repr

/-- One entry of the ratios output.  `none` in an `Option` field models the
key being absent from the Python result dict (for `note`, also being present
with value `None`, which the source emits for quick ratio). -/
structure RatioResult where
  value : RatioValue
  formula : String
  interpretation : String
  data_quality : String
  unit : Option String := none
  missing_fields : Option (List String) := none
  note : Option String := none
  error : Option String := none
  is_custom : Bool := false
  deriving DecidableEq, Repr

/-- Output type of `calculate_all_ratios`: category name to ratio key to
result, both dicts in insertion order. -/
abbrev RatiosOutput : Type := List (String × List (String × RatioResult))

/-!
Strings from `base_ratios_config.py` used by the service
(`config['formula']`, `config['interpretation']`, `config['unit']`).
The apostrophe in `Shareholders' Equity` is written via its character code.
-/

/-- The string `Shareholders' Equity` from the base config. -/
def shEquityStr : String := "Shareholders" ++ String.mk [apostrophe] ++ " Equity"

/-- `shareholders' equity` as it appears inside interpretation texts. -/
def shEquityLower : String := "shareholders" ++ String.mk [apostrophe] ++ " equity"

/-- `interpretation` used by every unobtainable base ratio. -/
def insufficientData : String := "Insufficient data to calculate"

/-! ### `financial_ratios_service.py`: ratio computation -/

/-- `calculate_average(current_value, previous_value)`. -/
def calculate_average (c p : Option ℚ) : Option ℚ :=
  if c ≠ none ∧ p ≠ none then some ((c.getD 0 + p.getD 0) / 2) else c

/-- The averaged balance-sheet values of `_prepare_averaged_data`. -/
structure AvgData where
  avg_total_assets : Option ℚ := none
  avg_total_equity : Option ℚ := none
  avg_fixed_assets : Option ℚ := none
  avg_inventories : Option ℚ := none
  avg_accounts_receivable : Option ℚ := none
  deriving DecidableEq, Repr

/-- `_prepare_averaged_data(current, previous)`. -/
def prepare_averaged_data (current previous : YearRecord) : AvgData where
  avg_total_assets :=
    calculate_average current.totals.total_assets previous.totals.total_assets
  avg_total_equity :=
    calculate_average current.equity.total previous.equity.total
  avg_fixed_assets :=
    calculate_average current.non_current_assets.fixed_assets
      previous.non_current_assets.fixed_assets
  avg_inventories :=
    calculate_average current.current_assets.inventories
      previous.current_assets.inventories
  avg_accounts_receivable :=
    calculate_average current.current_assets.accounts_receivable
      previous.current_assets.accounts_receivable

/-- `_prepare_flattened_data(current_year, avg_data)`: the averaged data and
the fixed list of current-year keys, in dict insertion order, with `None`
values dropped at the end. -/
def prepare_flattened_data (cy : YearRecord) (avg : AvgData) : List (String × ℚ) :=
  ([("avg_total_assets", avg.avg_total_assets),
    ("avg_total_equity", avg.avg_total_equity),
    ("avg_fixed_assets", avg.avg_fixed_assets),
    ("avg_inventories", avg.avg_inventories),
    ("avg_accounts_receivable", avg.avg_accounts_receivable),
    ("current_assets", cy.current_assets.total),
    ("inventories", cy.current_assets.inventories),
    ("accounts_receivable", cy.current_assets.accounts_receivable),
    ("cash", cy.current_assets.cash),
    ("non_current_assets", cy.non_current_assets.total),
    ("fixed_assets", cy.non_current_assets.fixed_assets),
    ("current_liabilities", cy.current_liabilities.total),
    ("non_current_liabilities", cy.non_current_liabilities.total),
    ("total_assets", cy.totals.total_assets),
    ("total_liabilities", cy.totals.total_liabilities),
    ("total_equity", cy.equity.total),
    ("share_capital", cy.equity.share_capital),
    ("retained_earnings", cy.equity.retained_earnings),
    ("revenue", cy.income_statement.revenue),
    ("cost_of_goods_sold", cy.income_statement.cost_of_goods_sold),
    ("gross_profit", cy.income_statement.gross_profit),
    ("operating_expenses", cy.income_statement.operating_expenses),
    ("operating_income", cy.income_statement.operating_income),
    ("ebit", cy.income_statement.ebit),
    ("interest_expense", cy.income_statement.interest_expense),
    ("income_tax_expense", cy.income_statement.income_tax_expense),
    ("net_income", cy.income_statement.net_income)]).filterMap
    (fun kv => match kv.2 with | some v => some (kv.1, v) | none => none)

/-- `calculate_liquidity_ratios(data)`. -/
def calculate_liquidity_ratios (d : YearRecord) : List (String × RatioResult) :=
  let ca := d.current_assets.total
  let cl := d.current_liabilities.total
  let inventories := d.current_assets.inventories
  let missing : List String :=
    (if ca = none then ["Current Assets"] else []) ++
    (if cl = none then ["Current Liabilities"] else [])
  let missingOr : List String :=
    if missing ≠ [] then missing else ["Complete data not available"]
  let currentEntry : RatioResult :=
    if ca ≠ none ∧ cl ≠ none ∧ cl ≠ some 0 then
      { value := .num (round2 (ca.getD 0 / cl.getD 0)),
        formula := "Current Assets / Current Liabilities",
        interpretation := "Measures ability to pay short-term obligations",
        data_quality := "complete" }
    else
      { value := .na,
        formula := "Current Assets / Current Liabilities",
        interpretation := insufficientData,
        data_quality := "incomplete",
        missing_fields := some missingOr }
  let quickEntry : RatioResult :=
    if ca ≠ none ∧ cl ≠ none ∧ cl ≠ some 0 then
      let inventory_value := inventories.getD 0
      let quick_assets := ca.getD 0 - inventory_value
      { value := .num (round2 (quick_assets / cl.getD 0)),
        formula := "(Current Assets - Inventory) / Current Liabilities",
        interpretation :=
          "Measures ability to pay short-term obligations without selling inventory",
        data_quality := if inventories ≠ none then "complete" else "estimated",
        note := if inventories = none then some "Inventory assumed to be 0" else none }
    else
      { value := .na,
        formula := "(Current Assets - Inventory) / Current Liabilities",
        interpretation := insufficientData,
        data_quality := "incomplete",
        missing_fields := some missingOr }
  [("current_ratio", currentEntry), ("quick_ratio", quickEntry)]

/-- `calculate_profitability_ratios(data, avg_data)`. -/
def calculate_profitability_ratios (d : YearRecord) (avg : AvgData) :
    List (String × RatioResult) :=
  let gross_profit := d.income_statement.gross_profit
  let revenue := d.income_statement.revenue
  let net_income := d.income_statement.net_income
  let avg_total_equity := avg.avg_total_equity
  let avg_total_assets := avg.avg_total_assets
  let gpm : RatioResult :=
    if gross_profit ≠ none ∧ revenue ≠ none ∧ revenue ≠ some 0 then
      { value := .num (round2 ((gross_profit.getD 0 / revenue.getD 0) * 100)),
        formula := "((Revenue - Cost of Goods Sold) / Revenue) × 100",
        interpretation :=
          "Percentage of revenue remaining after deducting cost of goods sold",
        unit := some "%", data_quality := "complete" }
    else
      { value := .na,
        formula := "((Revenue - Cost of Goods Sold) / Revenue) × 100",
        interpretation := insufficientData,
        unit := some "%", data_quality := "incomplete" }
  let npm : RatioResult :=
    if net_income ≠ none ∧ revenue ≠ none ∧ revenue ≠ some 0 then
      { value := .num (round2 ((net_income.getD 0 / revenue.getD 0) * 100)),
        formula := "(Net Income / Revenue) × 100",
        interpretation := "Percentage of revenue that translates to profit",
        unit := some "%", data_quality := "complete" }
    else
      { value := .na,
        formula := "(Net Income / Revenue) × 100",
        interpretation := insufficientData,
        unit := some "%", data_quality := "incomplete" }
  let roe : RatioResult :=
    if net_income ≠ none ∧ avg_total_equity ≠ none ∧ avg_total_equity ≠ some 0 then
      { value := .num (round2 ((net_income.getD 0 / avg_total_equity.getD 0) * 100)),
        formula := "(Net Income / " ++ shEquityStr ++ ") × 100",
        interpretation :=
          "How efficiently the company generates profit from " ++ shEquityLower,
        unit := some "%", data_quality := "complete" }
    else
      { value := .na,
        formula := "(Net Income / " ++ shEquityStr ++ ") × 100",
        interpretation := insufficientData,
        unit := some "%", data_quality := "incomplete" }
  let roa : RatioResult :=
    if net_income ≠ none ∧ avg_total_assets ≠ none ∧ avg_total_assets ≠ some 0 then
      { value := .num (round2 ((net_income.getD 0 / avg_total_assets.getD 0) * 100)),
        formula := "(Net Income / Total Assets) × 100",
        interpretation :=
          "How efficiently the company uses its assets to generate profit",
        unit := some "%", data_quality := "complete" }
    else
      { value := .na,
        formula := "(Net Income / Total Assets) × 100",
        interpretation := insufficientData,
        unit := some "%", data_quality := "incomplete" }
  [("gross_profit_margin", gpm), ("net_profit_margin", npm),
   ("return_on_equity", roe), ("return_on_assets", roa)]

/-- `calculate_solvency_ratios(data, avg_data)` (the `avg_data` parameter is
unused by the source body as well). -/
def calculate_solvency_ratios (d : YearRecord) (_avg : AvgData) :
    List (String × RatioResult) :=
  let current_liabilities := d.current_liabilities.total
  let non_current_liabilities := d.non_current_liabilities.total
  let total_liabilities := d.totals.total_liabilities
  let total_equity := d.equity.total
  let total_assets := d.totals.total_assets
  let ebit := d.income_statement.ebit
  let interest_expense := d.income_statement.interest_expense
  let dte : RatioResult :=
    if total_liabilities ≠ none ∧ total_equity ≠ none ∧ total_equity ≠ some 0 then
      { value := .num (round2 (total_liabilities.getD 0 / total_equity.getD 0)),
        formula := "Total Liabilities / " ++ shEquityStr,
        interpretation :=
          "Indicates the relative proportion of debt and equity used to finance assets",
        data_quality := "complete" }
    else if current_liabilities ≠ none ∧ non_current_liabilities ≠ none ∧
        total_equity ≠ none ∧ total_equity ≠ some 0 then
      let total_debt := current_liabilities.getD 0 + non_current_liabilities.getD 0
      { value := .num (round2 (total_debt / total_equity.getD 0)),
        formula := "(Current Liabilities + Non-Current Liabilities) / Total Equity",
        interpretation :=
          "Indicates the relative proportion of debt and equity used to finance assets",
        data_quality := "estimated" }
    else
      { value := .na,
        formula := "Total Liabilities / " ++ shEquityStr,
        interpretation := insufficientData,
        data_quality := "incomplete" }
  let dr : RatioResult :=
    if total_liabilities ≠ none ∧ total_assets ≠ none ∧ total_assets ≠ some 0 then
      { value := .num (round2 ((total_liabilities.getD 0 / total_assets.getD 0) * 100)),
        formula := "(Total Liabilities / Total Assets) × 100",
        interpretation := "Percentage of assets financed by debt",
        unit := some "%", data_quality := "complete" }
    else
      { value := .na,
        formula := "(Total Liabilities / Total Assets) × 100",
        interpretation := insufficientData,
        unit := some "%", data_quality := "incomplete" }
  let ic : RatioResult :=
    if ebit ≠ none ∧ interest_expense ≠ none ∧ interest_expense ≠ some 0 then
      let income_tax := d.income_statement.income_tax_expense.getD 0
      let numerator := ebit.getD 0 + income_tax
      { value := .num (round2 (numerator / interest_expense.getD 0)),
        formula := "EBIT / Interest Expense",
        interpretation := "Ability to pay interest on outstanding debt",
        data_quality := "complete" }
    else
      { value := .na,
        formula := "EBIT / Interest Expense",
        interpretation := insufficientData,
        data_quality := "incomplete" }
  [("debt_to_equity", dte), ("debt_ratio", dr), ("interest_coverage", ic)]

/-- `calculate_efficiency_ratios(data, avg_data)`. -/
def calculate_efficiency_ratios (d : YearRecord) (avg : AvgData) :
    List (String × RatioResult) :=
  let revenue := d.income_statement.revenue
  let avg_total_assets := avg.avg_total_assets
  let avg_fixed_assets := avg.avg_fixed_assets
  let avg_inventories := avg.avg_inventories
  let avg_accounts_receivable := avg.avg_accounts_receivable
  let atv : RatioResult :=
    if revenue ≠ none ∧ avg_total_assets ≠ none ∧ avg_total_assets ≠ some 0 then
      { value := .num (round2 (revenue.getD 0 / avg_total_assets.getD 0)),
        formula := "Revenue / Total Assets",
        interpretation := "How efficiently assets are used to generate revenue",
        data_quality := "complete" }
    else
      { value := .na, formula := "Revenue / Total Assets",
        interpretation := insufficientData, data_quality := "incomplete" }
  let fat : RatioResult :=
    if revenue ≠ none ∧ avg_fixed_assets ≠ none ∧ avg_fixed_assets ≠ some 0 then
      { value := .num (round2 (revenue.getD 0 / avg_fixed_assets.getD 0)),
        formula := "Revenue / Fixed Assets",
        interpretation := "How efficiently fixed assets generate revenue",
        data_quality := "complete" }
    else
      { value := .na, formula := "Revenue / Fixed Assets",
        interpretation := insufficientData, data_quality := "incomplete" }
  let it : RatioResult :=
    if revenue ≠ none ∧ avg_inventories ≠ none ∧ avg_inventories ≠ some 0 then
      { value := .num (round2 (revenue.getD 0 / avg_inventories.getD 0)),
        formula := "Cost of Goods Sold / Average Inventory",
        interpretation := "How many times inventory is sold and replaced in a period",
        data_quality := "complete" }
    else
      { value := .na, formula := "Cost of Goods Sold / Average Inventory",
        interpretation := insufficientData, data_quality := "incomplete" }
  let dt : RatioResult :=
    if revenue ≠ none ∧ avg_accounts_receivable ≠ none ∧
        avg_accounts_receivable ≠ some 0 then
      { value := .num (round2 (revenue.getD 0 / avg_accounts_receivable.getD 0)),
        formula := "Revenue / Accounts Receivable",
        interpretation := "How quickly the company collects payments from customers",
        data_quality := "complete" }
    else
      { value := .na, formula := "Revenue / Accounts Receivable",
        interpretation := insufficientData, data_quality := "incomplete" }
  [("asset_turnover", atv), ("fixed_asset_turnover", fat),
   ("inventory_turnover", it), ("debtors_turnover", dt)]

/-!
### Custom ratios (developer mode)

A `CustomRatio` models one entry of the `custom_ratios` request list.  Its
formula is carried both as the already parsed tree (fed to
`evaluate_formula`) and as the display string echoed into the result.
-/

/-- One custom ratio configuration. -/
structure CustomRatio where
  /-- `custom_ratio.get('name', '')`. -/
  name : String := ""
  /-- `custom_ratio.get('id')`; when absent the id defaults to the slug of the name. -/
  id : Option String := none
  /-- `custom_ratio.get('category', 'custom')`. -/
  category : Option String := none
  /-- The parsed `custom_ratio['formula']`. -/
  formula : PyNode
  /-- The formula display string echoed into the result. -/
  formulaStr : String := ""
  /-- `custom_ratio.get('interpretation', '')`. -/
  interpretation : Option String := none
  /-- `custom_ratio.get('unit', 'ratio')`. -/
  unit : Option String := none

/-- The dict key under which a custom ratio is stored:
`custom_ratio.get('id', custom_ratio.get('name', '').lower().replace(' ', '_'))`. -/
def CustomRatio.key (c : CustomRatio) : String :=
  c.id.getD (pySlugId c.name)

/-- The category key: `custom_ratio.get('category', 'custom').lower()`. -/
def CustomRatio.categoryKey (c : CustomRatio) : String :=
  pyLower (c.category.getD "custom")

/-- The `ratio_result` dict built for one custom ratio (loop body of
`calculate_all_ratios`, success and failure arms). -/
def customRatioResult (flat : List (String × ℚ)) (c : CustomRatio) : RatioResult :=
  let unit := c.unit.getD "ratio"
  match evaluate_formula c.formula flat with
  | .ok v =>
      let scaled := if unit = "%" then (if v < 10 then v * 100 else v) else v
      { value := .num (round2 scaled),
        formula := c.formulaStr,
        interpretation := c.interpretation.getD "",
        unit := some unit,
        data_quality := "complete",
        is_custom := true }
  | .error e =>
      { value := .na,
        formula := c.formulaStr,
        interpretation := c.interpretation.getD "",
        unit := some unit,
        data_quality := "error",
        error := some e.message,
        is_custom := true }

/-- One iteration of the custom-ratio loop: ensure the category exists
(appending a fresh empty dict when new) and store the result under the
ratio id. -/
def applyCustomRatio (flat : List (String × ℚ)) (ratios : RatiosOutput)
    (c : CustomRatio) : RatiosOutput :=
  let category := c.categoryKey
  let withCat :=
    if (lookupL category ratios).isNone then ratios ++ [(category, [])] else ratios
  mapValAt category (updList c.key (customRatioResult flat c)) withCat

/-- `FinancialRatiosService.calculate_all_ratios(data, custom_ratios, dev_mode)`. -/
def calculate_all_ratios (data : FinData) (custom_ratios : List CustomRatio)
    (dev_mode : Bool) : RatiosOutput :=
  let cy := data.current_year
  let avg := prepare_averaged_data cy data.previous_year
  let base : RatiosOutput :=
    [("liquidity", calculate_liquidity_ratios cy),
     ("profitability", calculate_profitability_ratios cy avg),
     ("solvency", calculate_solvency_ratios cy avg),
     ("efficiency", calculate_efficiency_ratios cy avg)]
  if dev_mode && !custom_ratios.isEmpty then
    let flat := prepare_flattened_data cy avg
    custom_ratios.foldl (applyCustomRatio flat) base
  else base

/-- Lookup of one ratio entry in the output. -/
def getRatio (out : RatiosOutput) (cat key : String) : Option RatioResult :=
  (lookupL cat out).bind (lookupL key)

/-!
### `financial_analysis.py`: multi-source merging

The extraction results are raw JSON dicts; they are modelled by `JVal`.
Python dicts keep insertion order, so objects are ordered association lists.
The in-place mutation of `deep_merge` is modelled functionally; the only
aliasing effect the source relies on (the `all_years` list keeping the
pre-cleanup `previous_year` object after `merged['previous_year']` is
rebound) is reproduced by taking the pre-cleanup value.
-/

/-- A JSON value as produced by the extraction service. -/
inductive JVal where
  | null
  | num (q : ℚ)
  | str (s : String)
  | obj (fields : List (String × JVal))
  | arr (elems : List JVal)

/-- Python truthiness of a JSON value (`bool(v)`). -/
def truthy : JVal → Bool
  | .null => false
  | .num q => decide (q ≠ 0)
  | .str s => !(s == "")
  | .obj fs => !fs.isEmpty
  | .arr xs => !xs.isEmpty

/-- `v is None`. -/
def isNull : JVal → Bool
  | .null => true
  | _ => false

mutual
/-- Structural equality of JSON values, Python `==` (the order-insensitivity
of Python dict comparison is abstracted; the source only compares `year`
values, which are atoms). -/
def jvalBeq : JVal → JVal → Bool
  | .null, .null => true
  | .num a, .num b => a == b
  | .str a, .str b => a == b
  | .obj a, .obj b => jvalFieldsBeq a b
  | .arr a, .arr b => jvalListBeq a b
  | _, _ => false
termination_by structural a _ => a

/-- Structural equality of object field lists. -/
def jvalFieldsBeq : List (String × JVal) → List (String × JVal) → Bool
  | [], [] => true
  | (k, v) :: r, (k', v') :: r' => k == k' && jvalBeq v v' && jvalFieldsBeq r r'
  | _, _ => false
termination_by structural a _ => a

/-- Structural equality of arrays. -/
def jvalListBeq : List JVal → List JVal → Bool
  | [], [] => true
  | v :: r, v' :: r' => jvalBeq v v' && jvalListBeq r r'
  | _, _ => false
termination_by structural a _ => a
end

mutual
/-- The per-field merge decision of `deep_merge` for a key present in both
dicts: recurse on two dicts; otherwise prefer non-null values, taking the
maximum when both are numeric, and keeping the accumulator in every other
case (including a null incoming value). -/
def deep_merge_val (bv uv : JVal) : JVal :=
  match bv, uv with
  | .obj bs, .obj us => .obj (deep_merge_fields bs us)
  | _, _ =>
    if isNull uv then bv
    else if isNull bv then uv
    else
      match bv, uv with
      | .num a, .num b => .num (max a b)
      | _, _ => bv
termination_by structural uv

/-- `deep_merge(base, update)`: iterate the update dict in order, recursing
per field; keys absent from the base are appended with the incoming value
(even a null one). -/
def deep_merge_fields (bs : List (String × JVal)) :
    List (String × JVal) → List (String × JVal)
  | [] => bs
  | (k, v) :: rest =>
      let bs' :=
        match lookupL k bs with
        | none => bs ++ [(k, v)]
        | some bv => updList k (deep_merge_val bv v) bs
      deep_merge_fields bs' rest
termination_by structural l => l
end

/-- The merge policy as worded by the specification: dict values merged
field-by-field; both numeric takes the maximum; a null accumulator takes the
incoming value; otherwise the accumulator is kept.  Stated separately from
`deep_merge_val` so that agreement between the two is a theorem. -/
def mergePolicySpec : JVal → JVal → JVal
  | .obj a, .obj b => .obj (deep_merge_fields a b)
  | .num a, .num b => .num (max a b)
  | .null, v => v
  | acc, _ => acc

/-- The empty per-year structure both accumulator years are initialised to. -/
def skeletonYear : List (String × JVal) := [
  ("year", .null),
  ("current_assets", .obj [("total", .null), ("breakdown", .obj [])]),
  ("non_current_assets", .obj [("total", .null), ("breakdown", .obj [])]),
  ("current_liabilities", .obj [("total", .null), ("breakdown", .obj [])]),
  ("non_current_liabilities", .obj [("total", .null), ("breakdown", .obj [])]),
  ("equity", .obj [("total", .null), ("breakdown", .obj [])]),
  ("income_statement", .obj []),
  ("totals", .obj [("total_assets", .null), ("total_liabilities", .null),
                   ("total_equity", .null)])]

/-- `any(v for k, v in fields.items() if k != 'year' and v)`: does a year
dict hold a truthy value under a non-`year` key? -/
def hasTruthyNonYear (fs : List (String × JVal)) : Bool :=
  fs.any (fun kv => !(kv.1 == "year") && truthy kv.2)

/-- `data.get('current_year', data)`, coerced to dict fields (a non-dict
`current_year` value would raise inside `deep_merge`; outside the model). -/
def getCurrentYearFields (d : List (String × JVal)) : List (String × JVal) :=
  match lookupL "current_year" d with
  | some (.obj c) => c
  | some _ => []
  | none => d

/-- `fields.get('year')` (`none` both for an absent key and as Python `None`). -/
def getYearField (fs : List (String × JVal)) : Option JVal :=
  lookupL "year" fs

/-- Python `other.get('year') == base.get('year')` (`None == None` is true). -/
def yearMatches (a b : Option JVal) : Bool :=
  match a, b with
  | none, none => true
  | some x, some y => jvalBeq x y
  | _, _ => false

/-- The single-source arm of `merge_financial_data`: pass through, merely
synthesizing `all_years` from `current_year`/`previous_year` when absent. -/
def mergeSingleSource (d : List (String × JVal)) (c : ℚ) :
    (List (String × JVal)) × ℚ :=
  if (lookupL "all_years" d).isNone then
    let fromCurrent : List JVal :=
      match lookupL "current_year" d with
      | some cv => if truthy cv then [cv] else []
      | none => []
    let fromPrevious : List JVal :=
      match lookupL "previous_year" d with
      | some (.obj ps) => if hasTruthyNonYear ps then [.obj ps] else []
      | _ => []
    (updList "all_years" (.arr (fromCurrent ++ fromPrevious)) d, c)
  else (d, c)

/-- The state threaded through the merge loop: the two year accumulators and
the `all_years` list collected from the first source providing one. -/
structure MergeState where
  mc : List (String × JVal)
  mp : List (String × JVal)
  ays : List JVal

/-- One iteration of the merge loop of `merge_financial_data`. -/
def mergeStep (st : MergeState) (src : (List (String × JVal)) × ℚ) : MergeState :=
  let d := src.1
  let mc' := deep_merge_fields st.mc (getCurrentYearFields d)
  let mp' :=
    match lookupL "previous_year" d with
    | some (.obj ps) => if !ps.isEmpty then deep_merge_fields st.mp ps else st.mp
    | _ => st.mp
  let ays' :=
    if st.ays.isEmpty then
      match lookupL "all_years" d with
      | some (.arr ys) => ys
      | _ => st.ays
    else st.ays
  ⟨mc', mp', ays'⟩

/-- The multi-source arm of `merge_financial_data`. -/
def mergeMultiSource (data_list : List ((List (String × JVal)) × ℚ)) :
    (List (String × JVal)) × ℚ :=
  let st := data_list.foldl mergeStep ⟨skeletonYear, skeletonYear, []⟩
  let mergedAllYears : List JVal :=
    if !st.ays.isEmpty && decide (data_list.length > 1) then
      -- per-year supplemental merge from the remaining sources, matched on
      -- the `year` field
      st.ays.map (fun yd =>
        match yd with
        | .obj yfs =>
            .obj ((data_list.drop 1).foldl
              (fun (my : List (String × JVal)) (src : (List (String × JVal)) × ℚ) =>
                match lookupL "all_years" src.1 with
                | some (.arr others) =>
                    others.foldl (fun (my : List (String × JVal)) o =>
                      match o with
                      | .obj ofs =>
                          if yearMatches (getYearField ofs) (getYearField yfs) then
                            deep_merge_fields my ofs
                          else my
                      | _ => my) my
                | _ => my) yfs)
        | v => v)
    else if !st.ays.isEmpty then st.ays
    else
      (if !st.mc.isEmpty && truthy ((getYearField st.mc).getD .null) then
        [.obj st.mc] else []) ++
      (if hasTruthyNonYear st.mp then [.obj st.mp] else [])
  let avg : ℚ := (data_list.map Prod.snd).sum / data_list.length
  -- `# Clean up empty previous year`
  let mpFinal : List (String × JVal) := if hasTruthyNonYear st.mp then st.mp else []
  ([("current_year", .obj st.mc), ("previous_year", .obj mpFinal),
    ("all_years", .arr mergedAllYears)], avg)

/-- `merge_financial_data(data_list)`. -/
def merge_financial_data (data_list : List ((List (String × JVal)) × ℚ)) :
    (List (String × JVal)) × ℚ :=
  match data_list with
  | [(d, c)] => mergeSingleSource d c
  | l => mergeMultiSource l

mutual
/-- Is there a non-null leaf anywhere inside a JSON value?  (Used to state
that a year record carries no real data.) -/
def hasNonNullLeaf : JVal → Bool
  | .null => false
  | .num _ => true
  | .str _ => true
  | .obj fs => hasNonNullLeafFields fs
  | .arr xs => hasNonNullLeafList xs
termination_by structural v => v

/-- `hasNonNullLeaf` over object fields. -/
def hasNonNullLeafFields : List (String × JVal) → Bool
  | [] => false
  | (_, v) :: rest => hasNonNullLeaf v || hasNonNullLeafFields rest
termination_by structural l => l

/-- `hasNonNullLeaf` over arrays. -/
def hasNonNullLeafList : List JVal → Bool
  | [] => false
  | v :: rest => hasNonNullLeaf v || hasNonNullLeafList rest
termination_by structural l => l
end

/-!
### Derived definitions used by the statements below
-/

/-- The variable environment `evaluate_formula` evaluates under: lookup in the
data dict after the `k.replace(' ', '_')` key cleaning. -/
def dataVars (data : List (String × ℚ)) : String → Option ℚ :=
  fun k => lookupL k (data.map (fun kv => (replaceChar kv.1 ' ' '_', kv.2)))

/-- Does the tree contain a `/`-division subterm whose right operand
evaluates (under `vars`) to exactly zero? -/
def hitsZeroDiv (vars : String → Option ℚ) : PyNode → Bool
  | .num _ => false
  | .name _ => false
  | .binop op l r =>
      (op == .div &&
        (match safe_eval_ast vars r with | .ok v => v == 0 | .error _ => false))
      || hitsZeroDiv vars l || hitsZeroDiv vars r
  | .unaryop _ e => hitsZeroDiv vars e
  | .expression b => hitsZeroDiv vars b
  | .boolop l r => hitsZeroDiv vars l || hitsZeroDiv vars r
  | .compare l r => hitsZeroDiv vars l || hitsZeroDiv vars r
  | .ifexp c t e => hitsZeroDiv vars c || hitsZeroDiv vars t || hitsZeroDiv vars e
  | .call fn arg => hitsZeroDiv vars fn || hitsZeroDiv vars arg
  | .lam body => hitsZeroDiv vars body
  | .attrNode val _ => hitsZeroDiv vars val
  | .subscript val idx => hitsZeroDiv vars val || hitsZeroDiv vars idx
  | _ => false

/-- The base (dev-mode-independent) part of the `calculate_all_ratios`
output. -/
def baseRatiosOutput (data : FinData) : RatiosOutput :=
  [("liquidity", calculate_liquidity_ratios data.current_year),
   ("profitability", calculate_profitability_ratios data.current_year
      (prepare_averaged_data data.current_year data.previous_year)),
   ("solvency", calculate_solvency_ratios data.current_year
      (prepare_averaged_data data.current_year data.previous_year)),
   ("efficiency", calculate_efficiency_ratios data.current_year
      (prepare_averaged_data data.current_year data.previous_year))]

/-- The flattened variable map custom formulas are evaluated against. -/
def flatOf (data : FinData) : List (String × ℚ) :=
  prepare_flattened_data data.current_year
    (prepare_averaged_data data.current_year data.previous_year)

/-- Read a numeric leaf at a key path inside JSON object fields. -/
def jnumAt : List (String × JVal) → List String → Option ℚ
  | fs, [k] => match lookupL k fs with | some (.num q) => some q | _ => none
  | fs, k :: rest => match lookupL k fs with | some (.obj gs) => jnumAt gs rest | _ => none
  | _, [] => none

/-- A first extraction source: current-year current assets and a total-assets
figure, no previous year. -/
def srcA : List (String × JVal) :=
  [("current_year", .obj [("current_assets", .obj [("total", .num 500000)]),
                          ("totals", .obj [("total_assets", .num 900000)])])]

/-- A second source with disjoint non-null fields except the overlapping
total-assets figure, no previous year. -/
def srcB : List (String × JVal) :=
  [("current_year", .obj [("current_liabilities", .obj [("total", .num 200000)]),
                          ("totals", .obj [("total_assets", .num 950000)])])]

/-- No entry anywhere in a ratios output is marked as a custom ratio. -/
def noCustomEntries (out : RatiosOutput) : Bool :=
  out.all (fun c => c.2.all (fun kr => !kr.2.is_custom))

/-!
## Theorems

Shared auxiliary lemmas come first, then one theorem per claim (with its
witness or counterexample where required).
-/

theorem lookupL_updList_self {α : Type} (k : String) (v : α) (l : List (String × α)) :
    lookupL k (updList k v l) = some v := by
  induction l with
  | nil => simp [updList, lookupL]
  | cons kv rest ih =>
      by_cases h : kv.1 = k
      · simp [updList, h, lookupL]
      · simpa [updList, h, lookupL] using ih

theorem lookupL_updList_ne {α : Type} {k k' : String} (hne : k' ≠ k) (v : α)
    (l : List (String × α)) : lookupL k' (updList k v l) = lookupL k' l := by
  induction l with
  | nil => simp [updList, lookupL, Ne.symm hne]
  | cons kv rest ih =>
      by_cases h : kv.1 = k
      · subst h
        simp [updList, lookupL, Ne.symm hne]
      · simp only [updList, if_neg h, lookupL]
        by_cases h2 : kv.1 = k'
        · simp [h2]
        · simp [h2, ih]

theorem lookupL_mapValAt_self {α : Type} (k : String) (f : α → α)
    (l : List (String × α)) :
    lookupL k (mapValAt k f l) = (lookupL k l).map f := by
  induction l with
  | nil => simp [mapValAt, lookupL]
  | cons kv rest ih =>
      by_cases h : kv.1 = k
      · simp [mapValAt, h, lookupL]
      · simp [mapValAt, h, lookupL, ih]

theorem lookupL_mapValAt_ne {α : Type} {k k' : String} (hne : k' ≠ k) (f : α → α)
    (l : List (String × α)) : lookupL k' (mapValAt k f l) = lookupL k' l := by
  induction l with
  | nil => simp [mapValAt, lookupL]
  | cons kv rest ih =>
      by_cases h : kv.1 = k
      · subst h
        simp [mapValAt, lookupL, Ne.symm hne, ih]
      · simp only [mapValAt, if_neg h, lookupL]
        by_cases h2 : kv.1 = k'
        · simp [h2]
        · simp [h2, ih]

theorem lookupL_append_right {α : Type} {k : String} {l : List (String × α)}
    (h : lookupL k l = none) (l' : List (String × α)) :
    lookupL k (l ++ l') = lookupL k l' := by
  induction l with
  | nil => simp
  | cons kv rest ih =>
      simp only [lookupL] at h ⊢
      by_cases h2 : kv.1 = k
      · simp [h2] at h
      · simp only [if_neg h2] at h ⊢
        exact ih h

/-- Under `evalOk` the evaluator is exact: no error, and the returned value is
the mathematical denotation. -/
theorem safe_eval_ast_correct (vars : String → Option ℚ) :
    ∀ t : PyNode, evalOk vars t = true → safe_eval_ast vars t = .ok (denote vars t) := by
  intro t
  induction t with
  | num v => intro _; rfl
  | name id =>
      intro h
      simp only [evalOk] at h
      cases hv : vars id with
      | none => rw [hv] at h; simp at h
      | some v => simp [safe_eval_ast, denote, hv]
  | binop op l r ihl ihr =>
      intro h
      simp only [evalOk, Bool.and_eq_true] at h
      obtain ⟨⟨hl, hr⟩, hop⟩ := h
      simp only [safe_eval_ast, ihl hl, ihr hr]
      cases op with
      | add => simp [applyBinOp, denote]
      | sub => simp [applyBinOp, denote]
      | mult => simp [applyBinOp, denote]
      | div =>
          simp only [decide_eq_true_eq] at hop
          simp [applyBinOp, denote, hop]
      | mod =>
          simp only [decide_eq_true_eq] at hop
          simp [applyBinOp, denote, hop]
      | floordiv =>
          simp only [decide_eq_true_eq] at hop
          simp [applyBinOp, denote, hop]
      | pow =>
          simp only [Bool.and_eq_true, decide_eq_true_eq] at hop
          have hne : ¬(BinOpK.pow = BinOpK.div ∧ denote vars r = 0) :=
            fun hc => BinOpK.noConfusion hc.1
          rw [if_neg hne]
          simp only [applyBinOp, if_pos hop.1, if_neg hop.2]
          rfl
  | unaryop op e ih =>
      intro h
      simp only [evalOk] at h
      simp [safe_eval_ast, ih h, denote]
  | expression b ih =>
      intro h
      simp only [evalOk] at h
      simp [safe_eval_ast, ih h, denote]
  | boolop l r _ _ => intro h; simp [evalOk] at h
  | compare l r _ _ => intro h; simp [evalOk] at h
  | ifexp c t e _ _ _ => intro h; simp [evalOk] at h
  | call fn arg _ _ => intro h; simp [evalOk] at h
  | lam body _ => intro h; simp [evalOk] at h
  | funcdef => intro h; simp [evalOk] at h
  | importStmt => intro h; simp [evalOk] at h
  | importFrom => intro h; simp [evalOk] at h
  | attrNode val a _ => intro h; simp [evalOk] at h
  | subscript val idx _ _ => intro h; simp [evalOk] at h

theorem evalOk_isArith (vars : String → Option ℚ) :
    ∀ t : PyNode, evalOk vars t = true → isArithOnly t = true := by
  intro t
  induction t with
  | num v => intro _; rfl
  | name id => intro _; rfl
  | binop op l r ihl ihr =>
      intro h
      simp only [evalOk, Bool.and_eq_true] at h
      simp [isArithOnly, ihl h.1.1, ihr h.1.2]
  | unaryop op e ih =>
      intro h
      simp only [evalOk] at h
      simpa [isArithOnly] using ih h
  | expression b ih =>
      intro h
      simp only [evalOk] at h
      simpa [isArithOnly] using ih h
  | boolop l r _ _ => intro h; simp [evalOk] at h
  | compare l r _ _ => intro h; simp [evalOk] at h
  | ifexp c t e _ _ _ => intro h; simp [evalOk] at h
  | call fn arg _ _ => intro h; simp [evalOk] at h
  | lam body _ => intro h; simp [evalOk] at h
  | funcdef => intro h; simp [evalOk] at h
  | importStmt => intro h; simp [evalOk] at h
  | importFrom => intro h; simp [evalOk] at h
  | attrNode val a _ => intro h; simp [evalOk] at h
  | subscript val idx _ _ => intro h; simp [evalOk] at h

theorem arith_no_walk_error :
    ∀ t : PyNode, isArithOnly t = true → walkFindError t = none := by
  intro t
  induction t with
  | num v => intro _; rfl
  | name id => intro _; rfl
  | binop op l r ihl ihr =>
      intro h
      simp only [isArithOnly, Bool.and_eq_true] at h
      simp [walkFindError, ihl h.1, ihr h.2, Option.orElse]
  | unaryop op e ih =>
      intro h
      simp only [isArithOnly] at h
      simp [walkFindError, ih h]
  | expression b ih =>
      intro h
      simp only [isArithOnly] at h
      simp [walkFindError, ih h]
  | boolop l r _ _ => intro h; simp [isArithOnly] at h
  | compare l r _ _ => intro h; simp [isArithOnly] at h
  | ifexp c t e _ _ _ => intro h; simp [isArithOnly] at h
  | call fn arg _ _ => intro h; simp [isArithOnly] at h
  | lam body _ => intro h; simp [isArithOnly] at h
  | funcdef => intro h; simp [isArithOnly] at h
  | importStmt => intro h; simp [isArithOnly] at h
  | importFrom => intro h; simp [isArithOnly] at h
  | attrNode val a _ => intro h; simp [isArithOnly] at h
  | subscript val idx _ _ => intro h; simp [isArithOnly] at h

theorem containsBanned_walk_isSome :
    ∀ t : PyNode, containsBanned t = true → (walkFindError t).isSome = true := by
  intro t
  induction t with
  | num v => intro h; simp [containsBanned] at h
  | name id => intro h; simp [containsBanned] at h
  | binop op l r ihl ihr =>
      intro h
      simp only [containsBanned, Bool.or_eq_true] at h
      cases hw : walkFindError l with
      | some m => simp [walkFindError, hw, Option.orElse]
      | none =>
          rcases h with h | h
          · have := ihl h; rw [hw] at this; simp at this
          · simp [walkFindError, hw, Option.orElse, ihr h]
  | unaryop op e ih =>
      intro h
      simp only [containsBanned] at h
      simpa [walkFindError] using ih h
  | expression b ih =>
      intro h
      simp only [containsBanned] at h
      simpa [walkFindError] using ih h
  | boolop l r ihl ihr =>
      intro h
      simp only [containsBanned, Bool.or_eq_true] at h
      cases hw : walkFindError l with
      | some m => simp [walkFindError, hw, Option.orElse]
      | none =>
          rcases h with h | h
          · have := ihl h; rw [hw] at this; simp at this
          · simp [walkFindError, hw, Option.orElse, ihr h]
  | compare l r ihl ihr =>
      intro h
      simp only [containsBanned, Bool.or_eq_true] at h
      cases hw : walkFindError l with
      | some m => simp [walkFindError, hw, Option.orElse]
      | none =>
          rcases h with h | h
          · have := ihl h; rw [hw] at this; simp at this
          · simp [walkFindError, hw, Option.orElse, ihr h]
  | ifexp c t e ihc iht ihe =>
      intro h
      simp only [containsBanned, Bool.or_eq_true] at h
      cases hwc : walkFindError c with
      | some m => simp [walkFindError, hwc, Option.orElse]
      | none =>
          cases hwt : walkFindError t with
          | some m => simp [walkFindError, hwc, hwt, Option.orElse]
          | none =>
              rcases h with (h | h) | h
              · have := ihc h; rw [hwc] at this; simp at this
              · have := iht h; rw [hwt] at this; simp at this
              · simp [walkFindError, hwc, hwt, Option.orElse, ihe h]
  | call fn arg _ _ => intro _; rfl
  | lam body _ => intro _; rfl
  | funcdef => intro _; rfl
  | importStmt => intro _; rfl
  | importFrom => intro _; rfl
  | attrNode val a _ => intro _; rfl
  | subscript val idx _ _ => intro _; rfl

theorem nonarith_eval_error (vars : String → Option ℚ) :
    ∀ t : PyNode, isArithOnly t = false → ∃ e, safe_eval_ast vars t = .error e := by
  intro t
  induction t with
  | num v => intro h; simp [isArithOnly] at h
  | name id => intro h; simp [isArithOnly] at h
  | binop op l r ihl ihr =>
      intro h
      simp only [isArithOnly, Bool.and_eq_false_iff] at h
      cases hl : safe_eval_ast vars l with
      | error e => exact ⟨e, by simp [safe_eval_ast, hl]⟩
      | ok a =>
          have hrF : isArithOnly r = false := by
            rcases h with h | h
            · rcases ihl h with ⟨e, he⟩
              rw [hl] at he
              cases he
            · exact h
          rcases ihr hrF with ⟨e, he⟩
          exact ⟨e, by simp [safe_eval_ast, hl, he]⟩
  | unaryop op e ih =>
      intro h
      simp only [isArithOnly] at h
      rcases ih h with ⟨err, he⟩
      exact ⟨err, by simp [safe_eval_ast, he]⟩
  | expression b ih =>
      intro h
      simp only [isArithOnly] at h
      rcases ih h with ⟨err, he⟩
      exact ⟨err, by simp [safe_eval_ast, he]⟩
  | boolop l r _ _ => intro _; exact ⟨.unsupportedNode, rfl⟩
  | compare l r _ _ => intro _; exact ⟨.unsupportedNode, rfl⟩
  | ifexp c t e _ _ _ => intro _; exact ⟨.unsupportedNode, rfl⟩
  | call fn arg _ _ => intro _; exact ⟨.unsupportedNode, rfl⟩
  | lam body _ => intro _; exact ⟨.unsupportedNode, rfl⟩
  | funcdef => intro _; exact ⟨.unsupportedNode, rfl⟩
  | importStmt => intro _; exact ⟨.unsupportedNode, rfl⟩
  | importFrom => intro _; exact ⟨.unsupportedNode, rfl⟩
  | attrNode val a _ => intro _; exact ⟨.unsupportedNode, rfl⟩
  | subscript val idx _ _ => intro _; exact ⟨.unsupportedNode, rfl⟩

/-- Claim C1, counterexample: the formula `1 < 2` parses to a `Compare` node,
which is outside the arithmetic whitelist, yet `parse_and_validate_formula`
accepts it and returns a tree — refuting that the validator itself rejects
every node kind outside the whitelist. -/
theorem C1_counterexample_compare_accepted :
    parse_and_validate_formula (.compare (.num 1) (.num 2)) =
      (true, none, some (.compare (.num 1) (.num 2))) ∧
    isArithOnly (.compare (.num 1) (.num 2)) = false :=
  ⟨rfl, rfl⟩

/-- Claim C1 as amended: `parse_and_validate_formula` rejects (invalid, with
an error message, never returning a tree) every formula whose parsed tree
contains a function/method call, lambda or function definition, import,
attribute access or subscript; node kinds outside the arithmetic whitelist
that are not in this blacklist (comparisons, conditionals, boolean
operations) pass validation but are rejected by default by `safe_eval_ast`
at evaluation time, so they never produce a value. -/
theorem C1_validator_blacklist_eval_default_deny :
    (∀ t : PyNode, containsBanned t = true →
        (parse_and_validate_formula t).1 = false ∧
        (parse_and_validate_formula t).2.1.isSome = true ∧
        (parse_and_validate_formula t).2.2 = none) ∧
    (∀ (vars : String → Option ℚ) (t : PyNode), isArithOnly t = false →
        ∃ e, safe_eval_ast vars t = .error e) := by
  constructor
  · intro t h
    have hs := containsBanned_walk_isSome t h
    cases hw : walkFindError t with
    | none => rw [hw] at hs; simp at hs
    | some m => simp [parse_and_validate_formula, hw]
  · exact nonarith_eval_error

/-- Witness for C1: a concrete call node is rejected by the validator, and a
concrete comparison node errors at evaluation. -/
theorem C1_validator_blacklist_eval_default_deny_witness :
    ((parse_and_validate_formula (.call (.name "max") (.name "A"))).1 = false ∧
     (parse_and_validate_formula (.call (.name "max") (.name "A"))).2.1.isSome = true ∧
     (parse_and_validate_formula (.call (.name "max") (.name "A"))).2.2 = none) ∧
    ∃ e, safe_eval_ast (fun _ => none) (.compare (.num 1) (.num 2)) = .error e :=
  ⟨C1_validator_blacklist_eval_default_deny.1 _ (by decide),
   C1_validator_blacklist_eval_default_deny.2 _ _ (by decide)⟩

theorem evaluate_formula_exact (t : PyNode) (data : List (String × ℚ))
    (h : evalOk (dataVars data) t = true) :
    evaluate_formula t data = .ok (denote (dataVars data) t) := by
  have harith : isArithOnly t = true := evalOk_isArith _ t h
  have hwalk : walkFindError t = none := arith_no_walk_error t harith
  unfold evaluate_formula
  simp only [parse_and_validate_formula, hwalk]
  exact safe_eval_ast_correct _ t h

/-- Claim C2 (confirmed): on formulas built from numeric literals, variables
and the supported binary/unary operators, with every referenced variable
supplied and no zero divisor (and powers inside the exact rational model),
`evaluate_formula` succeeds with the mathematically correct value; in
particular `current_assets / current_liabilities` on
`{current_assets: 500000, current_liabilities: 200000}` gives `2.5`. -/
theorem C2_evaluate_formula_mathematically_correct :
    (∀ (t : PyNode) (data : List (String × ℚ)),
        evalOk (dataVars data) t = true →
        evaluate_formula t data = .ok (denote (dataVars data) t)) ∧
    evaluate_formula (.binop .div (.name "current_assets") (.name "current_liabilities"))
        [("current_assets", 500000), ("current_liabilities", 200000)] = .ok (5/2) := by
  refine ⟨evaluate_formula_exact, ?_⟩
  have h := evaluate_formula_exact
      (.binop .div (.name "current_assets") (.name "current_liabilities"))
      [("current_assets", 500000), ("current_liabilities", 200000)] (by decide)
  rw [h]
  have h1 : dataVars [("current_assets", (500000 : ℚ)), ("current_liabilities", 200000)]
      "current_assets" = some 500000 := by decide
  have h2 : dataVars [("current_assets", (500000 : ℚ)), ("current_liabilities", 200000)]
      "current_liabilities" = some 200000 := by decide
  simp [denote, h1, h2]
  norm_num

/-- Witness for C2: the general part applied at `1 + x` with `x = 2`. -/
theorem C2_evaluate_formula_mathematically_correct_witness :
    evaluate_formula (.binop .add (.num 1) (.name "x")) [("x", 2)] =
      .ok (denote (dataVars [("x", 2)]) (.binop .add (.num 1) (.name "x"))) :=
  C2_evaluate_formula_mathematically_correct.1 _ _ (by decide)

theorem eval_div_right_zero (vars : String → Option ℚ) (l r : PyNode) (x : ℚ)
    (hr : safe_eval_ast vars r = .ok 0) (hl : safe_eval_ast vars l = .ok x) :
    safe_eval_ast vars (.binop .div l r) = .error .divByZero := by
  simp [safe_eval_ast, hl, hr]

theorem eval_hits_zero_div (vars : String → Option ℚ) :
    ∀ t : PyNode, hitsZeroDiv vars t = true → ∃ e, safe_eval_ast vars t = .error e := by
  intro t
  induction t with
  | num v => intro h; simp [hitsZeroDiv] at h
  | name id => intro h; simp [hitsZeroDiv] at h
  | binop op l r ihl ihr =>
      intro h
      simp only [hitsZeroDiv, Bool.or_eq_true, Bool.and_eq_true, beq_iff_eq] at h
      rcases h with (⟨hop, hmatch⟩ | hdl) | hdr
      · subst hop
        cases hr : safe_eval_ast vars r with
        | error e =>
            cases hl : safe_eval_ast vars l with
            | error e2 => exact ⟨e2, by simp [safe_eval_ast, hl]⟩
            | ok a => exact ⟨e, by simp [safe_eval_ast, hl, hr]⟩
        | ok v =>
            rw [hr] at hmatch
            simp only [beq_iff_eq] at hmatch
            subst hmatch
            cases hl : safe_eval_ast vars l with
            | error e => exact ⟨e, by simp [safe_eval_ast, hl]⟩
            | ok a => exact ⟨.divByZero, eval_div_right_zero vars l r a hr hl⟩
      · rcases ihl hdl with ⟨e, he⟩
        exact ⟨e, by simp [safe_eval_ast, he]⟩
      · cases hl : safe_eval_ast vars l with
        | error e => exact ⟨e, by simp [safe_eval_ast, hl]⟩
        | ok a =>
            rcases ihr hdr with ⟨e, he⟩
            exact ⟨e, by simp [safe_eval_ast, hl, he]⟩
  | unaryop op e ih =>
      intro h
      simp only [hitsZeroDiv] at h
      rcases ih h with ⟨err, he⟩
      exact ⟨err, by simp [safe_eval_ast, he]⟩
  | expression b ih =>
      intro h
      simp only [hitsZeroDiv] at h
      rcases ih h with ⟨err, he⟩
      exact ⟨err, by simp [safe_eval_ast, he]⟩
  | boolop l r _ _ => intro _; exact ⟨.unsupportedNode, rfl⟩
  | compare l r _ _ => intro _; exact ⟨.unsupportedNode, rfl⟩
  | ifexp c t e _ _ _ => intro _; exact ⟨.unsupportedNode, rfl⟩
  | call fn arg _ _ => intro _; exact ⟨.unsupportedNode, rfl⟩
  | lam body _ => intro _; exact ⟨.unsupportedNode, rfl⟩
  | funcdef => intro h; simp [hitsZeroDiv] at h
  | importStmt => intro h; simp [hitsZeroDiv] at h
  | importFrom => intro h; simp [hitsZeroDiv] at h
  | attrNode val a _ => intro _; exact ⟨.unsupportedNode, rfl⟩
  | subscript val idx _ _ => intro _; exact ⟨.unsupportedNode, rfl⟩

/-- Claim C3 (confirmed): a `/` whose right operand evaluates to exactly zero
makes evaluation fail — with the dedicated division-by-zero error when the
left operand evaluated, never returning a numeric result; and any formula
containing such a division subterm fails evaluation as a whole. -/
theorem C3_division_by_zero_always_error :
    (∀ (vars : String → Option ℚ) (l r : PyNode) (x : ℚ),
        safe_eval_ast vars r = .ok 0 → safe_eval_ast vars l = .ok x →
        safe_eval_ast vars (.binop .div l r) = .error .divByZero) ∧
    (∀ (vars : String → Option ℚ) (l r : PyNode) (q : ℚ),
        safe_eval_ast vars r = .ok 0 →
        safe_eval_ast vars (.binop .div l r) ≠ .ok q) ∧
    (∀ (vars : String → Option ℚ) (t : PyNode),
        hitsZeroDiv vars t = true → ∃ e, safe_eval_ast vars t = .error e) := by
  refine ⟨eval_div_right_zero, ?_, eval_hits_zero_div⟩
  intro vars l r q hr hok
  cases hl : safe_eval_ast vars l with
  | error e => simp [safe_eval_ast, hl] at hok
  | ok a => rw [eval_div_right_zero vars l r a hr hl] at hok; cases hok

/-- Witness for C3 at the concrete division `1 / 0`. -/
theorem C3_division_by_zero_always_error_witness :
    safe_eval_ast (fun _ => none) (.binop .div (.num 1) (.num 0)) = .error .divByZero ∧
    safe_eval_ast (fun _ => none) (.binop .div (.num 1) (.num 0)) ≠ .ok 37 ∧
    ∃ e, safe_eval_ast (fun _ => none)
      (.expression (.binop .div (.num 1) (.num 0))) = .error e :=
  ⟨C3_division_by_zero_always_error.1 _ _ _ 1 rfl rfl,
   C3_division_by_zero_always_error.2.1 _ _ _ 37 rfl,
   C3_division_by_zero_always_error.2.2 _ _ (by decide)⟩

/-- Claim C8, counterexample: normalization is not idempotent.
`normalize("average inventory")` hits the alias table and yields
`"average_inventory"`, but `"average_inventory"` itself is not an alias key,
falls into the substring-overlap fallback, matches the `"inventory"` alias
and yields `"inventory"`. -/
theorem C8_counterexample_not_idempotent :
    normalize_variable_name "average inventory" = "average_inventory" ∧
    normalize_variable_name (normalize_variable_name "average inventory") = "inventory" ∧
    normalize_variable_name (normalize_variable_name "average inventory") ≠
      normalize_variable_name "average inventory" := by
  refine ⟨by decide, by decide, by decide⟩

/-- Claim C8 as amended: normalization is case-insensitive and total (a total
Lean function by construction, returning a string on every input), with
`normalize("Total Assets") = normalize("total assets") =
normalize("TOTAL ASSETS") = "total_assets"`, and it is idempotent on these
example inputs — but not idempotent in general (see the counterexample at
`"average inventory"`). -/
theorem C8_normalize_case_insensitive_examples :
    normalize_variable_name "Total Assets" = "total_assets" ∧
    normalize_variable_name "total assets" = "total_assets" ∧
    normalize_variable_name "TOTAL ASSETS" = "total_assets" ∧
    normalize_variable_name (normalize_variable_name "Total Assets") =
      normalize_variable_name "Total Assets" := by
  refine ⟨by decide, by decide, by decide, by decide⟩

/-- Claim C4, counterexample: for a record with no revenue, the
`gross_profit_margin` entry is `N/A`/`incomplete` but carries **no**
`missing_fields` key at all — the missing inputs are listed by human label
only for the liquidity ratios, refuting the claim for the other
categories. -/
theorem C4_counterexample_no_missing_fields_outside_liquidity :
    getRatio (calculate_all_ratios {} [] false) "profitability" "gross_profit_margin" =
      some { value := .na,
             formula := "((Revenue - Cost of Goods Sold) / Revenue) × 100",
             interpretation := insufficientData,
             unit := some "%",
             data_quality := "incomplete",
             missing_fields := none } := by
  rfl

/-- Claim C4 as amended: every one of the 13 fixed ratios of the four base
categories is always present in the output; a ratio with missing inputs, or
with an exactly-zero denominator (which never divides), gets `value = "N/A"`
and `data_quality = "incomplete"`; the liquidity entries additionally carry
`missing_fields` listing the missing inputs by human label (or a placeholder
when no named input is missing), while the other categories carry no
`missing_fields`; in particular a record missing `current_liabilities.total`
always yields a `current_ratio` entry with `value = "N/A"`,
`data_quality = "incomplete"` and `"Current Liabilities"` in
`missing_fields`. -/
theorem C4_fixed_ratios_always_present_graceful_missing :
    (∀ data : FinData,
        (calculate_all_ratios data [] false).map (fun c => (c.1, c.2.map Prod.fst)) =
          [("liquidity", ["current_ratio", "quick_ratio"]),
           ("profitability", ["gross_profit_margin", "net_profit_margin",
              "return_on_equity", "return_on_assets"]),
           ("solvency", ["debt_to_equity", "debt_ratio", "interest_coverage"]),
           ("efficiency", ["asset_turnover", "fixed_asset_turnover",
              "inventory_turnover", "debtors_turnover"])]) ∧
    (∀ data : FinData, data.current_year.current_liabilities.total = none →
        getRatio (calculate_all_ratios data [] false) "liquidity" "current_ratio" =
          some { value := .na,
                 formula := "Current Assets / Current Liabilities",
                 interpretation := insufficientData,
                 data_quality := "incomplete",
                 missing_fields := some ((if data.current_year.current_assets.total = none
                    then ["Current Assets"] else []) ++ ["Current Liabilities"]) } ∧
        "Current Liabilities" ∈ (if data.current_year.current_assets.total = none
                    then ["Current Assets"] else []) ++ ["Current Liabilities"]) ∧
    (∀ data : FinData, data.current_year.current_liabilities.total = some 0 →
        getRatio (calculate_all_ratios data [] false) "liquidity" "current_ratio" =
          some { value := .na,
                 formula := "Current Assets / Current Liabilities",
                 interpretation := insufficientData,
                 data_quality := "incomplete",
                 missing_fields := some (if data.current_year.current_assets.total = none
                    then ["Current Assets"] else ["Complete data not available"]) }) ∧
    (∀ data : FinData, data.current_year.income_statement.revenue = none →
        getRatio (calculate_all_ratios data [] false) "profitability" "gross_profit_margin" =
          some { value := .na,
                 formula := "((Revenue - Cost of Goods Sold) / Revenue) × 100",
                 interpretation := insufficientData,
                 unit := some "%",
                 data_quality := "incomplete",
                 missing_fields := none }) := by
  refine ⟨fun data => rfl, ?_, ?_, ?_⟩
  · intro data h
    constructor
    · by_cases hca : data.current_year.current_assets.total = none <;>
        simp [calculate_all_ratios, getRatio, lookupL, calculate_liquidity_ratios, h, hca]
    · by_cases hca : data.current_year.current_assets.total = none <;> simp [hca]
  · intro data h
    by_cases hca : data.current_year.current_assets.total = none <;>
      simp [calculate_all_ratios, getRatio, lookupL, calculate_liquidity_ratios, h, hca]
  · intro data h
    by_cases hgp : data.current_year.income_statement.gross_profit = none <;>
      simp [calculate_all_ratios, getRatio, lookupL, calculate_profitability_ratios, h, hgp]

/-- Witness for C4 at concrete records: the all-empty record (missing
`current_liabilities.total` and `revenue`) and a record whose current
liabilities total is exactly zero. -/
theorem C4_fixed_ratios_always_present_graceful_missing_witness :
    ((calculate_all_ratios {} [] false).map (fun c => (c.1, c.2.map Prod.fst)) =
      [("liquidity", ["current_ratio", "quick_ratio"]),
       ("profitability", ["gross_profit_margin", "net_profit_margin",
          "return_on_equity", "return_on_assets"]),
       ("solvency", ["debt_to_equity", "debt_ratio", "interest_coverage"]),
       ("efficiency", ["asset_turnover", "fixed_asset_turnover",
          "inventory_turnover", "debtors_turnover"])]) ∧
    (getRatio (calculate_all_ratios {} [] false) "liquidity" "current_ratio" =
      some { value := .na,
             formula := "Current Assets / Current Liabilities",
             interpretation := insufficientData,
             data_quality := "incomplete",
             missing_fields := some ["Current Assets", "Current Liabilities"] } ∧
      "Current Liabilities" ∈ ["Current Assets", "Current Liabilities"]) ∧
    (getRatio (calculate_all_ratios
        { current_year := { current_liabilities := { total := some 0 } } } [] false)
        "liquidity" "current_ratio" =
      some { value := .na,
             formula := "Current Assets / Current Liabilities",
             interpretation := insufficientData,
             data_quality := "incomplete",
             missing_fields := some ["Current Assets"] }) :=
  ⟨C4_fixed_ratios_always_present_graceful_missing.1 {},
   C4_fixed_ratios_always_present_graceful_missing.2.1 {} rfl,
   C4_fixed_ratios_always_present_graceful_missing.2.2.1 _ rfl⟩

/-- Claim C9 (confirmed): a custom ratio whose unit is `%` and whose formula
evaluates to a raw result `r` reports `r * 100` when `r < 10` and `r`
unchanged otherwise, rounded to two decimals in both cases (the quality is
`complete`). -/
theorem C9_percent_heuristic_scaling :
    ∀ (flat : List (String × ℚ)) (c : CustomRatio) (r : ℚ),
      c.unit.getD "ratio" = "%" →
      evaluate_formula c.formula flat = .ok r →
      (customRatioResult flat c).value = .num (round2 (if r < 10 then r * 100 else r)) ∧
      (customRatioResult flat c).data_quality = "complete" := by
  intro flat c r hu he
  simp [customRatioResult, he, hu]

/-- Witness for C9: a `%`-unit custom ratio whose formula is the literal
`1/20 = 0.05`; the reported value is `round(5.0, 2)`. -/
theorem C9_percent_heuristic_scaling_witness :
    (customRatioResult [] { formula := .num (1/20), unit := some "%" }).value =
      .num (round2 (if (1 : ℚ)/20 < 10 then (1 : ℚ)/20 * 100 else (1 : ℚ)/20)) ∧
    (customRatioResult [] { formula := .num (1/20), unit := some "%" }).data_quality =
      "complete" :=
  C9_percent_heuristic_scaling [] { formula := .num (1/20), unit := some "%" }
    ((1 : ℚ)/20) rfl rfl

/-- Claim C10 (confirmed): with `dev_mode = false` the output is independent
of the `custom_ratios` argument — any two custom lists give identical
results — and contains exactly the 13 base ratios of the four base
categories, with no entry marked as custom. -/
theorem C10_dev_mode_off_ignores_custom_ratios :
    (∀ (data : FinData) (cs₁ cs₂ : List CustomRatio),
        calculate_all_ratios data cs₁ false = calculate_all_ratios data cs₂ false) ∧
    (∀ (data : FinData) (cs : List CustomRatio),
        (calculate_all_ratios data cs false).map (fun c => (c.1, c.2.map Prod.fst)) =
          [("liquidity", ["current_ratio", "quick_ratio"]),
           ("profitability", ["gross_profit_margin", "net_profit_margin",
              "return_on_equity", "return_on_assets"]),
           ("solvency", ["debt_to_equity", "debt_ratio", "interest_coverage"]),
           ("efficiency", ["asset_turnover", "fixed_asset_turnover",
              "inventory_turnover", "debtors_turnover"])]) ∧
    (∀ (data : FinData) (cs : List CustomRatio),
        noCustomEntries (calculate_all_ratios data cs false) = true) := by
  refine ⟨fun data cs₁ cs₂ => rfl, fun data cs => rfl, ?_⟩
  intro data cs
  simp only [calculate_all_ratios, Bool.false_and, Bool.if_false_left,
    noCustomEntries, List.all, calculate_liquidity_ratios,
    calculate_profitability_ratios, calculate_solvency_ratios,
    calculate_efficiency_ratios, apply_ite RatioResult.is_custom]
  simp

theorem lookupL_append_left {α : Type} {k : String} {l : List (String × α)} {v : α}
    (h : lookupL k l = some v) (l' : List (String × α)) :
    lookupL k (l ++ l') = some v := by
  induction l with
  | nil => simp [lookupL] at h
  | cons kv rest ih =>
      simp only [lookupL, List.cons_append] at h ⊢
      by_cases h2 : kv.1 = k
      · simpa [h2] using h
      · simp only [if_neg h2] at h ⊢
        exact ih h

theorem calc_true_eq_fold (data : FinData) (cs : List CustomRatio) :
    calculate_all_ratios data cs true =
      cs.foldl (applyCustomRatio (flatOf data)) (baseRatiosOutput data) := by
  cases cs <;> rfl

theorem lookupL_ensure_self (R : RatiosOutput) (ck : String) :
    lookupL ck (if (lookupL ck R).isNone then R ++ [(ck, [])] else R) =
      some ((lookupL ck R).getD []) := by
  cases hcat : lookupL ck R with
  | none =>
      simp only [hcat, Option.isNone_none, if_true, Option.getD_none]
      rw [lookupL_append_right hcat]
      simp [lookupL]
  | some d => simp [hcat]

theorem lookupL_ensure_other {cat ck : String} (hc : cat ≠ ck) (R : RatiosOutput) :
    lookupL cat (if (lookupL ck R).isNone then R ++ [(ck, [])] else R) =
      lookupL cat R := by
  cases hcat : lookupL ck R with
  | some d => simp [hcat]
  | none =>
      simp only [hcat, Option.isNone_none, if_true]
      cases hR : lookupL cat R with
      | some v => rw [lookupL_append_left hR]
      | none =>
          rw [lookupL_append_right hR]
          simp [lookupL, Ne.symm hc]

theorem applyCustom_hit (flat : List (String × ℚ)) (R : RatiosOutput)
    (c : CustomRatio) :
    getRatio (applyCustomRatio flat R c) c.categoryKey c.key =
      some (customRatioResult flat c) := by
  unfold applyCustomRatio getRatio
  rw [lookupL_mapValAt_self, lookupL_ensure_self]
  simp [lookupL_updList_self]

theorem applyCustom_other (flat : List (String × ℚ)) (R : RatiosOutput)
    (c : CustomRatio) (cat key : String) (h : ¬(cat = c.categoryKey ∧ key = c.key)) :
    getRatio (applyCustomRatio flat R c) cat key = getRatio R cat key := by
  unfold applyCustomRatio getRatio
  by_cases hc : cat = c.categoryKey
  · have hk : key ≠ c.key := fun hkk => h ⟨hc, hkk⟩
    subst hc
    rw [lookupL_mapValAt_self, lookupL_ensure_self]
    cases hcat : lookupL c.categoryKey R with
    | none => simp [updList, lookupL, Ne.symm hk]
    | some d => simp [lookupL_updList_ne hk]
  · rw [lookupL_mapValAt_ne hc, lookupL_ensure_other hc]

theorem foldCustom_pointwise (flat : List (String × ℚ)) (cat key : String) :
    ∀ (cs : List CustomRatio) (R R' : RatiosOutput),
      getRatio R cat key = getRatio R' cat key →
      getRatio (cs.foldl (applyCustomRatio flat) R) cat key =
        getRatio (cs.foldl (applyCustomRatio flat) R') cat key := by
  intro cs
  induction cs with
  | nil => intro R R' h; exact h
  | cons c rest ih =>
      intro R R' h
      simp only [List.foldl_cons]
      apply ih
      by_cases hck : cat = c.categoryKey ∧ key = c.key
      · obtain ⟨h1, h2⟩ := hck
        subst h1; subst h2
        rw [applyCustom_hit, applyCustom_hit]
      · rw [applyCustom_other _ _ _ _ _ hck, applyCustom_other _ _ _ _ _ hck, h]

/-- Claim C5 (confirmed): in dev mode, a custom ratio whose formula fails
validation or evaluation yields for that ratio a result with `value = "N/A"`,
`data_quality = "error"` and the captured message in `error`; and its
presence anywhere in the list never changes any other entry of the output —
every other (category, key) reads exactly as it would with that custom ratio
removed, so all base ratios and all other custom ratios are still computed
and present. -/
theorem C5_custom_failure_converted_and_isolated :
    (∀ (flat : List (String × ℚ)) (c : CustomRatio) (e : EvalErr),
        evaluate_formula c.formula flat = .error e →
        customRatioResult flat c =
          { value := .na, formula := c.formulaStr,
            interpretation := c.interpretation.getD "",
            unit := some (c.unit.getD "ratio"),
            data_quality := "error", error := some e.message,
            is_custom := true }) ∧
    (∀ (data : FinData) (cs : List CustomRatio) (c : CustomRatio),
        getRatio (calculate_all_ratios data (cs ++ [c]) true) c.categoryKey c.key =
          some (customRatioResult (flatOf data) c)) ∧
    (∀ (data : FinData) (cs₁ cs₂ : List CustomRatio) (c : CustomRatio)
        (cat key : String), ¬(cat = c.categoryKey ∧ key = c.key) →
        getRatio (calculate_all_ratios data (cs₁ ++ c :: cs₂) true) cat key =
          getRatio (calculate_all_ratios data (cs₁ ++ cs₂) true) cat key) := by
  refine ⟨?_, ?_, ?_⟩
  · intro flat c e he
    simp [customRatioResult, he]
  · intro data cs c
    rw [calc_true_eq_fold, List.foldl_append]
    simp only [List.foldl_cons, List.foldl_nil]
    exact applyCustom_hit _ _ c
  · intro data cs₁ cs₂ c cat key h
    rw [calc_true_eq_fold, calc_true_eq_fold, List.foldl_append, List.foldl_append]
    simp only [List.foldl_cons]
    exact foldCustom_pointwise _ cat key cs₂ _ _ (applyCustom_other _ _ _ _ _ h)

/-- Witness for C5: a custom ratio referencing an unknown variable fails with
the variable-not-found message, its entry lands under its own key, and an
unrelated base entry (`solvency`/`debt_ratio`) is untouched. -/
theorem C5_custom_failure_converted_and_isolated_witness :
    (customRatioResult []
        { name := "bad", id := some "bad_ratio", category := some "liquidity",
          formula := .name "nope", formulaStr := "nope" } =
      { value := .na, formula := "nope", interpretation := "",
        unit := some "ratio", data_quality := "error",
        error := some ((EvalErr.varNotFound "nope").message), is_custom := true }) ∧
    (getRatio
        (calculate_all_ratios {}
          [{ name := "bad", id := some "bad_ratio", category := some "liquidity",
             formula := .name "nope", formulaStr := "nope" }] true)
        (CustomRatio.categoryKey
          { name := "bad", id := some "bad_ratio", category := some "liquidity",
            formula := .name "nope", formulaStr := "nope" })
        (CustomRatio.key
          { name := "bad", id := some "bad_ratio", category := some "liquidity",
            formula := .name "nope", formulaStr := "nope" }) =
      some (customRatioResult (flatOf {})
        { name := "bad", id := some "bad_ratio", category := some "liquidity",
          formula := .name "nope", formulaStr := "nope" })) ∧
    (getRatio
        (calculate_all_ratios {}
          [{ name := "bad", id := some "bad_ratio", category := some "liquidity",
             formula := .name "nope", formulaStr := "nope" }] true)
        "solvency" "debt_ratio" =
      getRatio (calculate_all_ratios {} [] true) "solvency" "debt_ratio") :=
  ⟨C5_custom_failure_converted_and_isolated.1 [] _ (.varNotFound "nope") rfl,
   C5_custom_failure_converted_and_isolated.2.1 {} [] _,
   C5_custom_failure_converted_and_isolated.2.2 {} [] [] _ "solvency" "debt_ratio"
     (by decide)⟩

set_option maxRecDepth 4000 in
/-- Claim C6 (confirmed): the per-field merge policy — take the incoming
value when the accumulator lacks the key, the maximum when both values are
numeric, the incoming non-null value when the accumulator is null, and merge
dict values field-by-field (`deep_merge_val` agrees everywhere with the
policy as worded by the specification); merging the two example records with
disjoint non-null fields yields the union of both, the overlapping numeric
field takes the maximum, and the returned confidence is the arithmetic mean
`0.75` of `0.8` and `0.7`. -/
theorem C6_deep_merge_policy_and_mean_confidence :
    (∀ bv uv, deep_merge_val bv uv = mergePolicySpec bv uv) ∧
    (∀ (bs : List (String × JVal)) (k : String) (v : JVal),
        lookupL k bs = none → lookupL k (deep_merge_fields bs [(k, v)]) = some v) ∧
    (∀ (bs : List (String × JVal)) (k : String) (v bv : JVal),
        lookupL k bs = some bv →
        lookupL k (deep_merge_fields bs [(k, v)]) = some (deep_merge_val bv v)) ∧
    (jnumAt ((merge_financial_data [(srcA, 4/5), (srcB, 7/10)]).1)
        ["current_year", "current_assets", "total"] = some 500000 ∧
     jnumAt ((merge_financial_data [(srcA, 4/5), (srcB, 7/10)]).1)
        ["current_year", "current_liabilities", "total"] = some 200000 ∧
     jnumAt ((merge_financial_data [(srcA, 4/5), (srcB, 7/10)]).1)
        ["current_year", "totals", "total_assets"] = some 950000) ∧
    (merge_financial_data [(srcA, 4/5), (srcB, 7/10)]).2 = 3/4 := by
  refine ⟨?_, ?_, ?_, ⟨rfl, rfl, rfl⟩, ?_⟩
  · intro bv uv
    cases bv <;> cases uv <;> simp [deep_merge_val, mergePolicySpec, isNull]
  · intro bs k v h
    simp only [deep_merge_fields, h]
    rw [lookupL_append_right h]
    simp [lookupL]
  · intro bs k v bv h
    simp only [deep_merge_fields, h]
    exact lookupL_updList_self k _ bs
  · norm_num [merge_financial_data, mergeMultiSource]

/-- Witness for C6: the two hypothesis-bearing field-policy parts applied at
a concrete one-field accumulator. -/
theorem C6_deep_merge_policy_and_mean_confidence_witness :
    lookupL "b" (deep_merge_fields [("a", JVal.num 1)] [("b", JVal.num 2)]) =
      some (JVal.num 2) ∧
    lookupL "a" (deep_merge_fields [("a", JVal.num 1)] [("a", JVal.num 3)]) =
      some (deep_merge_val (JVal.num 1) (JVal.num 3)) :=
  ⟨C6_deep_merge_policy_and_mean_confidence.2.1 [("a", JVal.num 1)] "b" (JVal.num 2) rfl,
   C6_deep_merge_policy_and_mean_confidence.2.2.1 [("a", JVal.num 1)] "a"
     (JVal.num 3) (JVal.num 1) rfl⟩

/-- Claim C7 (code bug): after a multi-source merge of two sources carrying
no previous-year data, the returned `previous_year` is the populated
all-null skeleton — eight keys, no non-null leaf — not the empty dict the
`# Clean up empty previous year` step intends: the truthiness test
`any(v for k, v in ... if k != 'year' and v)` sees the non-empty nested
group dicts of the skeleton (last conjunct), so the cleanup never fires in
the multi-source path. -/
theorem C7_previous_year_skeleton_not_normalized :
    lookupL "previous_year" ((merge_financial_data [(srcA, 4/5), (srcB, 7/10)]).1) =
      some (.obj skeletonYear) ∧
    hasNonNullLeafFields skeletonYear = false ∧
    skeletonYear.length = 8 ∧
    hasTruthyNonYear skeletonYear = true :=
  ⟨rfl, rfl, rfl, rfl⟩
